import Mathlib

/-!
A shallow embedding of the Spot image-publisher pipeline from
`spot_driver_cpp/src/images/spot_image_publisher.cpp`, together with proofs of
the behavioural properties of `createImageRequest`, `SpotImagePublisher::initialize`
and `SpotImagePublisher::timerCallback`.

Collaborator code that lives outside the provided sources
(`spot_image_sources.cpp`, `types.hpp`, `images_middleware_handle.cpp`) is
modelled from the specification and marked as such; the pipeline itself is a
direct translation of the C++ file. Stateful calls on the middleware handle are
made explicit as a trace of effects returned by each operation.
-/

namespace SpotRos2

/-- Modelled from the spec: the modality enum `SpotImageType` from `types.hpp`
(not among the provided sources) — COLOR, DEPTH or DEPTH_REGISTERED. -/
inductive SpotImageType where
  | RGB
  | DEPTH
  | DEPTH_REGISTERED
deriving DecidableEq

/-- Modelled from the spec: `ImageSource` from `types.hpp` (not among the
provided sources) — an immutable value pairing a body-location descriptor with
a modality, with decidable equality. -/
structure ImageSource where
  location : String
  type : SpotImageType
deriving DecidableEq

/-- The `bosdyn.api.Image.PixelFormat` values `createImageRequest` uses.
A protobuf enum field that was never set reads back as its zero value,
`PIXEL_FORMAT_UNKNOWN`. -/
inductive Image_PixelFormat where
  | PIXEL_FORMAT_UNKNOWN
  | PIXEL_FORMAT_RGB_U8
deriving DecidableEq

/-- The `bosdyn.api.Image.Format` values `createImageRequest` uses, plus the
protobuf zero value `FORMAT_UNKNOWN` for a field that was never set. -/
inductive Image_Format where
  | FORMAT_UNKNOWN
  | FORMAT_JPEG
  | FORMAT_RAW
deriving DecidableEq

/-- One `bosdyn.api.ImageRequest` sub-message as `createImageRequest` fills it
in: every field starts at its protobuf default and is overwritten by the
corresponding `set_` call. The quality is a `double` in C++; no arithmetic is
ever performed on it, so it is carried as an exact rational. -/
structure ImageRequest where
  image_source_name : String := ""
  quality_percent : Rat := 0
  pixel_format : Image_PixelFormat := Image_PixelFormat.PIXEL_FORMAT_UNKNOWN
  image_format : Image_Format := Image_Format.FORMAT_UNKNOWN
deriving DecidableEq

/-- The batched `bosdyn.api.GetImageRequest`: the repeated `image_requests`
field, in the order the `add_image_requests` calls appended to it. -/
structure GetImageRequest where
  image_requests : List ImageRequest := []
deriving DecidableEq

/-- Modelled from the spec: `toSpotImageSourceName` from `spot_image_sources.cpp`
(not among the provided sources) — the pure, total lookup mapping a logical
source descriptor to the wire-level name the sensing endpoint expects. -/
def toSpotImageSourceName (source : ImageSource) : String :=
  match source.type with
  | SpotImageType.RGB => source.location ++ "_image"
  | SpotImageType.DEPTH => source.location ++ "_depth"
  | SpotImageType.DEPTH_REGISTERED => source.location ++ "_depth_registered"

/-- `kDefaultDepthImageQuality = 100.0` from the anonymous namespace of
`spot_image_publisher.cpp`. -/
def kDefaultDepthImageQuality : Rat := 100

/-- The body of the loop in `createImageRequest`: the sub-request emitted for
one source. RGB sources get the user-configurable quality, the RGB_U8 pixel
format, and raw or JPEG encoding according to `get_raw_rgb_images`; DEPTH and
DEPTH_REGISTERED sources both get the fixed depth quality and raw encoding
(and no `set_pixel_format` call). -/
def imageRequestForSource (source : ImageSource) (rgb_image_quality : Rat)
    (get_raw_rgb_images : Bool) : ImageRequest :=
  if source.type = SpotImageType.RGB then
    { image_source_name := toSpotImageSourceName source
      quality_percent := rgb_image_quality
      pixel_format := Image_PixelFormat.PIXEL_FORMAT_RGB_U8
      image_format := if get_raw_rgb_images then Image_Format.FORMAT_RAW
                      else Image_Format.FORMAT_JPEG }
  else if source.type = SpotImageType.DEPTH then
    { image_source_name := toSpotImageSourceName source
      quality_percent := kDefaultDepthImageQuality
      image_format := Image_Format.FORMAT_RAW }
  else
    { image_source_name := toSpotImageSourceName source
      quality_percent := kDefaultDepthImageQuality
      image_format := Image_Format.FORMAT_RAW }

/-- `createImageRequest` from `spot_image_publisher.cpp`: one sub-request per
source, appended in iteration order of the source set (here: the order of the
list). The `has_rgb_cameras` parameter is declared `[[maybe_unused]]` in the
C++ and is never read. -/
def createImageRequest (sources : List ImageSource) (has_rgb_cameras : Bool)
    (rgb_image_quality : Rat) (get_raw_rgb_images : Bool) : GetImageRequest :=
  { image_requests :=
      sources.map (fun source =>
        imageRequestForSource source rgb_image_quality get_raw_rgb_images) }

/-- Modelled from the spec: the body-mounted camera locations, always
candidates for the source set (`spot_image_sources.cpp` is not among the
provided sources). -/
def bodyCameraLocations : List String :=
  ["back", "frontleft", "frontright", "left", "right"]

/-- Modelled from the spec: the arm-mounted camera locations, included only
when the robot has an arm. -/
def armCameraLocations : List String := ["hand"]

/-- Modelled from the spec: `createImageSources` / `sourcesFor` from
`spot_image_sources.cpp` (not among the provided sources) — the deterministic,
pure derivation of the source set from the three publish flags and the
arm-presence flag; an all-false input yields the empty set. -/
def createImageSources (publish_rgb_images : Bool) (publish_depth_images : Bool)
    (publish_depth_registered_images : Bool) (has_arm : Bool) : List ImageSource :=
  let locations := bodyCameraLocations ++ if has_arm then armCameraLocations else []
  (if publish_rgb_images then
    locations.map (fun l => { location := l, type := SpotImageType.RGB }) else []) ++
  (if publish_depth_images then
    locations.map (fun l => { location := l, type := SpotImageType.DEPTH }) else []) ++
  (if publish_depth_registered_images then
    locations.map (fun l => { location := l, type := SpotImageType.DEPTH_REGISTERED }) else [])

/-- The bundle a successful `ImageClientInterface::getImages` call returns
(`GetImagesResult`): the images keyed by their source and the ordered sequence
of transform updates. The payload types are parameters because the pipeline
never inspects them. -/
structure GetImagesResult (Img Tf : Type) where
  images_ : List (ImageSource × Img)
  transforms_ : List Tf
deriving DecidableEq

/-- `ImageClientInterface::getImages`: a synchronous call returning either a
result bundle or a human-readable diagnostic (the C++ `tl::expected`). -/
abbrev ImageClient (Img Tf : Type) := GetImageRequest → Except String (GetImagesResult Img Tf)

/-- One observable call the pipeline makes on its collaborators during a tick:
the fetch on the Image Client, a `logError` on the logger interface, a
per-source publish on the publisher adapter, or the single
`updateStaticTransforms` call on the tf interface. -/
inductive Effect (Img Tf : Type) where
  | fetch (request : GetImageRequest)
  | logError (message : String)
  | publish (source : ImageSource) (image : Img)
  | updateStaticTransforms (transforms : List Tf)
deriving DecidableEq

/-- Modelled from the spec: `MiddlewareHandle::publishImages` from
`images_middleware_handle.cpp` (not among the provided sources) — dispatches
each returned image to the output channel matching its source, one publish
call per entry of the result mapping, in order. -/
def publishImagesEffects {Img Tf : Type} (images : List (ImageSource × Img)) :
    List (Effect Img Tf) :=
  images.map (fun p => Effect.publish p.1 p.2)

/-- The state `SpotImagePublisher` owns: the optional stored request message
and the arm flag fixed at construction. -/
structure SpotImagePublisher where
  image_request_message_ : Option GetImageRequest
  has_arm_ : Bool
deriving DecidableEq

/-- `SpotImagePublisher::timerCallback`: if no request message was ever
generated, log an error and return; otherwise call `getImages` with the stored
request and either log the failure (with the client-provided detail appended)
or publish the returned images and forward the transform updates in one call.
The function returns the (unchanged) state together with the trace of
collaborator calls the tick made. -/
def timerCallback {Img Tf : Type} (getImages : ImageClient Img Tf)
    (st : SpotImagePublisher) : SpotImagePublisher × List (Effect Img Tf) :=
  match st.image_request_message_ with
  | none =>
      (st, [Effect.logError "No image request message generated. Returning."])
  | some request =>
      match getImages request with
      | Except.error err =>
          (st, [Effect.fetch request,
                Effect.logError ("Failed to get images: " ++ err)])
      | Except.ok image_result =>
          (st, Effect.fetch request ::
                (publishImagesEffects image_result.images_ ++
                 [Effect.updateStaticTransforms image_result.transforms_]))

/-- The configuration snapshot `SpotImagePublisher::initialize` reads once from
the parameter interface (each field falls back to a default when the user did
not set it; the defaults live outside the provided sources). -/
structure Params where
  rgb_image_quality : Rat
  publish_rgb_images : Bool
  publish_depth_images : Bool
  publish_depth_registered_images : Bool
  has_rgb_cameras : Bool
deriving DecidableEq

/-- One observable call `SpotImagePublisher::initialize` makes on its
collaborators: creating the per-source publishers, or arming the periodic
timer with the tick handler. -/
inductive InitEffect where
  | createPublishers (sources : List ImageSource)
  | setTimer
deriving DecidableEq

/-- `SpotImagePublisher::initialize` (named `initializePublisher` here because
the C++ name is a reserved word in Lean): read the parameters, derive the
source set, build the request message (with `get_raw_rgb_images` fixed to
`false`) and store it, create the publishers, arm the timer, and return
`true`. There is no other return statement in the C++ body. -/
def initializePublisher (params : Params) (st : SpotImagePublisher) :
    Bool × SpotImagePublisher × List InitEffect :=
  let sources := createImageSources params.publish_rgb_images params.publish_depth_images
      params.publish_depth_registered_images st.has_arm_
  let request := createImageRequest sources params.has_rgb_cameras
      params.rgb_image_quality false
  (true,
   { st with image_request_message_ := some request },
   [InitEffect.createPublishers sources, InitEffect.setTimer])

/-- A run of consecutive timer ticks; `clients k` is the Image Client behaviour
observed at tick `k` (the request argument of each call is chosen by the
pipeline). Returns the final state and the concatenated trace. -/
def runTicks {Img Tf : Type} (clients : Nat → ImageClient Img Tf) :
    Nat → SpotImagePublisher → SpotImagePublisher × List (Effect Img Tf)
  | 0, st => (st, [])
  | n + 1, st =>
      let first := timerCallback (clients 0) st
      let rest := runTicks (fun k => clients (k + 1)) n first.1
      (rest.1, first.2 ++ rest.2)

/-- The number of `logError` calls in a trace. -/
def countLogErrors {Img Tf : Type} (effects : List (Effect Img Tf)) : Nat :=
  effects.countP (fun e => match e with | Effect.logError _ => true | _ => false)

/-- The number of per-source publish calls in a trace. -/
def countPublishes {Img Tf : Type} (effects : List (Effect Img Tf)) : Nat :=
  effects.countP (fun e => match e with | Effect.publish _ _ => true | _ => false)

/-- The number of transform-broadcast (`updateStaticTransforms`) calls in a
trace. -/
def countBroadcasts {Img Tf : Type} (effects : List (Effect Img Tf)) : Nat :=
  effects.countP (fun e =>
    match e with | Effect.updateStaticTransforms _ => true | _ => false)

/-- The number of Image Client fetch calls in a trace. -/
def countFetches {Img Tf : Type} (effects : List (Effect Img Tf)) : Nat :=
  effects.countP (fun e => match e with | Effect.fetch _ => true | _ => false)

/-- The messages of the `logError` calls in a trace, in order. -/
def logMessages {Img Tf : Type} (effects : List (Effect Img Tf)) : List String :=
  effects.filterMap (fun e => match e with | Effect.logError m => some m | _ => none)

/-- The requests of the fetch calls in a trace, in order. -/
def fetchedRequests {Img Tf : Type} (effects : List (Effect Img Tf)) :
    List GetImageRequest :=
  effects.filterMap (fun e => match e with | Effect.fetch r => some r | _ => none)

/-- The (source, image) pairs of the publish calls in a trace, in order. -/
def publishedImages {Img Tf : Type} (effects : List (Effect Img Tf)) :
    List (ImageSource × Img) :=
  effects.filterMap (fun e => match e with | Effect.publish s i => some (s, i) | _ => none)

/-- The argument lists of the broadcast calls in a trace, in order: one entry
per `updateStaticTransforms` call, each carrying that call's whole ordered
sequence of transform updates. -/
def broadcastCalls {Img Tf : Type} (effects : List (Effect Img Tf)) : List (List Tf) :=
  effects.filterMap (fun e =>
    match e with | Effect.updateStaticTransforms t => some t | _ => none)

/-- The sub-request at position `i` of the built request is the loop body
applied to the source at position `i`. -/
theorem createImageRequest_get (sources : List ImageSource) (hc : Bool) (q : Rat)
    (raw : Bool) (i : Nat) (hi : i < sources.length) :
    ∃ hlen : i < (createImageRequest sources hc q raw).image_requests.length,
      (createImageRequest sources hc q raw).image_requests.get ⟨i, hlen⟩ =
        imageRequestForSource (sources.get ⟨i, hi⟩) q raw := by
  have hlen : (createImageRequest sources hc q raw).image_requests.length =
      sources.length := by
    simp [createImageRequest]
  refine ⟨by omega, ?_⟩
  simp [createImageRequest, List.get_eq_getElem]

/-- C2: every sub-request `createImageRequest` emits for a DEPTH or
DEPTH_REGISTERED source has quality equal to the fixed constant 100 and raw
image format, and neither `rgb_image_quality` nor `get_raw_rgb_images` (nor
`has_rgb_cameras`) influences such a sub-request. -/
theorem depth_subrequests_fixed_and_independent
    (sources : List ImageSource) (hc1 hc2 : Bool) (q1 q2 : Rat) (raw1 raw2 : Bool)
    (i : Nat) (hi : i < sources.length)
    (hdepth : (sources.get ⟨i, hi⟩).type = SpotImageType.DEPTH ∨
      (sources.get ⟨i, hi⟩).type = SpotImageType.DEPTH_REGISTERED) :
    ∃ h1 : i < (createImageRequest sources hc1 q1 raw1).image_requests.length,
    ∃ h2 : i < (createImageRequest sources hc2 q2 raw2).image_requests.length,
      ((createImageRequest sources hc1 q1 raw1).image_requests.get ⟨i, h1⟩).quality_percent
          = 100 ∧
      ((createImageRequest sources hc1 q1 raw1).image_requests.get ⟨i, h1⟩).image_format
          = Image_Format.FORMAT_RAW ∧
      (createImageRequest sources hc1 q1 raw1).image_requests.get ⟨i, h1⟩ =
        (createImageRequest sources hc2 q2 raw2).image_requests.get ⟨i, h2⟩ := by
  obtain ⟨h1, e1⟩ := createImageRequest_get sources hc1 q1 raw1 i hi
  obtain ⟨h2, e2⟩ := createImageRequest_get sources hc2 q2 raw2 i hi
  rw [List.get_eq_getElem] at hdepth
  refine ⟨h1, h2, ?_, ?_, ?_⟩
  · rw [e1]
    rcases hdepth with h | h <;>
      simp [imageRequestForSource, h, kDefaultDepthImageQuality]
  · rw [e1]
    rcases hdepth with h | h <;> simp [imageRequestForSource, h]
  · rw [e1, e2]
    rcases hdepth with h | h <;> simp [imageRequestForSource, h]

/-- Concrete depth source used by witnesses. -/
def wDepthSource : ImageSource :=
  { location := "back", type := SpotImageType.DEPTH }

/-- Concrete RGB source used by witnesses. -/
def wRgbSource : ImageSource :=
  { location := "frontleft", type := SpotImageType.RGB }

/-- Witness for C2: at the singleton DEPTH source, with quality 60 and raw
encoding requested for RGB, the emitted sub-request still has quality 100. -/
theorem depth_subrequests_witness :
    ([wDepthSource].get ⟨0, by decide⟩).type = SpotImageType.DEPTH ∧
    (∃ h1 : 0 < (createImageRequest [wDepthSource] true (60 : Rat) true).image_requests.length,
      ((createImageRequest [wDepthSource] true (60 : Rat) true).image_requests.get
          ⟨0, h1⟩).quality_percent = 100) := by
  refine ⟨rfl, ?_⟩
  obtain ⟨h1, _h2, hq, _hf, _he⟩ :=
    depth_subrequests_fixed_and_independent [wDepthSource] true false (60 : Rat)
      (25 : Rat) true false 0 (by decide) (Or.inl rfl)
  exact ⟨h1, hq⟩

/-- C7: every sub-request `createImageRequest` emits for an RGB (COLOR) source
carries the configured `rgb_image_quality` and raw encoding when
`get_raw_rgb_images` is true, JPEG encoding when it is false. -/
theorem rgb_subrequest_quality_and_encoding
    (sources : List ImageSource) (hc : Bool) (q : Rat) (raw : Bool)
    (i : Nat) (hi : i < sources.length)
    (hrgb : (sources.get ⟨i, hi⟩).type = SpotImageType.RGB) :
    ∃ h1 : i < (createImageRequest sources hc q raw).image_requests.length,
      ((createImageRequest sources hc q raw).image_requests.get ⟨i, h1⟩).quality_percent
          = q ∧
      ((createImageRequest sources hc q raw).image_requests.get ⟨i, h1⟩).image_format
          = (if raw then Image_Format.FORMAT_RAW else Image_Format.FORMAT_JPEG) := by
  obtain ⟨h1, e1⟩ := createImageRequest_get sources hc q raw i hi
  rw [List.get_eq_getElem] at hrgb
  refine ⟨h1, ?_, ?_⟩ <;> rw [e1] <;> simp [imageRequestForSource, hrgb]

/-- Witness for C7: at the singleton RGB source with quality 60 and
`get_raw_rgb_images = false`, the sub-request carries quality 60 and JPEG. -/
theorem rgb_subrequest_witness :
    ([wRgbSource].get ⟨0, by decide⟩).type = SpotImageType.RGB ∧
    (∃ h1 : 0 < (createImageRequest [wRgbSource] true (60 : Rat) false).image_requests.length,
      ((createImageRequest [wRgbSource] true (60 : Rat) false).image_requests.get
          ⟨0, h1⟩).quality_percent = 60 ∧
      ((createImageRequest [wRgbSource] true (60 : Rat) false).image_requests.get
          ⟨0, h1⟩).image_format
        = (if false then Image_Format.FORMAT_RAW else Image_Format.FORMAT_JPEG)) := by
  refine ⟨rfl, ?_⟩
  exact rgb_subrequest_quality_and_encoding [wRgbSource] true (60 : Rat) false 0
    (by decide) rfl

/-- C8: the empty source set yields a request with zero sub-requests, for every
value of the other inputs; the empty input is not an error. -/
theorem empty_sources_give_empty_request (hc : Bool) (q : Rat) (raw : Bool) :
    (createImageRequest [] hc q raw).image_requests = [] := rfl

/-- C9: `createImageRequest` is deterministic — two invocations with equal
source lists, equal `has_rgb_cameras`, equal quality and equal raw-RGB flag
produce equal requests. -/
theorem createImageRequest_deterministic
    (s1 s2 : List ImageSource) (hc1 hc2 : Bool) (q1 q2 : Rat) (raw1 raw2 : Bool)
    (hs : s1 = s2) (hhc : hc1 = hc2) (hq : q1 = q2) (hraw : raw1 = raw2) :
    createImageRequest s1 hc1 q1 raw1 = createImageRequest s2 hc2 q2 raw2 := by
  subst hs; subst hhc; subst hq; subst hraw; rfl

/-- Witness for C9 at a concrete invocation pair. -/
theorem createImageRequest_deterministic_witness :
    createImageRequest [wRgbSource] true (60 : Rat) false =
      createImageRequest [wRgbSource] true (60 : Rat) false :=
  createImageRequest_deterministic [wRgbSource] [wRgbSource] true true
    (60 : Rat) (60 : Rat) false false rfl rfl rfl rfl

/-- C10: the built request does not depend on `has_rgb_cameras` — the parameter
is `[[maybe_unused]]` and never read, so two runs differing only in it produce
identical requests. -/
theorem request_independent_of_has_rgb_cameras
    (sources : List ImageSource) (q : Rat) (raw : Bool) (hc1 hc2 : Bool) :
    createImageRequest sources hc1 q raw = createImageRequest sources hc2 q raw := rfl

/-- `timerCallback` never changes the pipeline state, whatever the client
returns. -/
theorem timerCallback_state_eq {Img Tf : Type} (getImages : ImageClient Img Tf)
    (st : SpotImagePublisher) : (timerCallback getImages st).1 = st := by
  unfold timerCallback
  split
  · rfl
  · split <;> rfl

/-- A family of ticks leaves the state unchanged. -/
theorem runTicks_state_eq {Img Tf : Type} (clients : Nat → ImageClient Img Tf)
    (n : Nat) (st : SpotImagePublisher) : (runTicks clients n st).1 = st := by
  induction n generalizing clients st with
  | zero => rfl
  | succ n ih => simp [runTicks, ih, timerCallback_state_eq]

/-- The per-source publish effects contain no fetch, log or broadcast entries:
any classifier that drops publish entries drops the whole block. -/
theorem filterMap_publishImagesEffects_eq_nil {Img Tf : Type} {γ : Type}
    (f : Effect Img Tf → Option γ) (hf : ∀ s i, f (Effect.publish s i) = none)
    (images : List (ImageSource × Img)) :
    (@publishImagesEffects Img Tf images).filterMap f = [] := by
  induction images with
  | nil => rfl
  | cons p rest ih =>
      simpa [publishImagesEffects, List.filterMap_cons, hf] using ih

/-- Any predicate that is false on publish entries counts zero in the
per-source publish effects. -/
theorem countP_publishImagesEffects_eq_zero {Img Tf : Type}
    (p : Effect Img Tf → Bool) (hp : ∀ s i, p (Effect.publish s i) = false)
    (images : List (ImageSource × Img)) :
    (@publishImagesEffects Img Tf images).countP p = 0 := by
  induction images with
  | nil => rfl
  | cons q rest ih =>
      simpa [publishImagesEffects, List.countP_cons, hp] using ih

/-- The publish effects replay exactly the (source, image) pairs of the result,
in order. -/
theorem publishedImages_publishImagesEffects {Img Tf : Type}
    (images : List (ImageSource × Img)) :
    publishedImages (@publishImagesEffects Img Tf images) = images := by
  induction images with
  | nil => rfl
  | cons p rest ih =>
      simp [publishImagesEffects, publishedImages, List.filterMap_cons] at ih ⊢
      exact ih

/-- One publish effect per entry of the result mapping. -/
theorem countPublishes_publishImagesEffects {Img Tf : Type}
    (images : List (ImageSource × Img)) :
    countPublishes (@publishImagesEffects Img Tf images) = images.length := by
  induction images with
  | nil => rfl
  | cons p rest ih =>
      simp [publishImagesEffects, countPublishes, List.countP_cons] at ih ⊢
      try exact ih

/-- The publish effects contain no fetch entries. -/
theorem fetchedRequests_publishImagesEffects {Img Tf : Type}
    (images : List (ImageSource × Img)) :
    fetchedRequests (@publishImagesEffects Img Tf images) = [] := by
  induction images with
  | nil => rfl
  | cons p rest ih =>
      simp only [publishImagesEffects, List.map_cons, fetchedRequests,
        List.filterMap_cons] at ih ⊢
      exact ih

/-- The publish effects contain no broadcast entries. -/
theorem broadcastCalls_publishImagesEffects {Img Tf : Type}
    (images : List (ImageSource × Img)) :
    broadcastCalls (@publishImagesEffects Img Tf images) = [] := by
  induction images with
  | nil => rfl
  | cons p rest ih =>
      simp only [publishImagesEffects, List.map_cons, broadcastCalls,
        List.filterMap_cons] at ih ⊢
      exact ih

/-- The publish effects count zero broadcast calls. -/
theorem countBroadcasts_publishImagesEffects {Img Tf : Type}
    (images : List (ImageSource × Img)) :
    countBroadcasts (@publishImagesEffects Img Tf images) = 0 := by
  induction images with
  | nil => rfl
  | cons p rest ih =>
      simp only [publishImagesEffects, List.map_cons, countBroadcasts,
        List.countP_cons] at ih ⊢
      simp [ih]

/-- Unfolding a tick whose state holds a request: the tick dispatches on the
client response. -/
theorem timerCallback_some {Img Tf : Type} (getImages : ImageClient Img Tf)
    (st : SpotImagePublisher) (request : GetImageRequest)
    (h : st.image_request_message_ = some request) :
    timerCallback getImages st =
      match getImages request with
      | Except.error err =>
          (st, [Effect.fetch request,
                Effect.logError ("Failed to get images: " ++ err)])
      | Except.ok image_result =>
          (st, Effect.fetch request ::
                (publishImagesEffects image_result.images_ ++
                 [Effect.updateStaticTransforms image_result.transforms_])) := by
  unfold timerCallback
  rw [h]

/-- Unfolding a tick on which the client fails. -/
theorem timerCallback_error {Img Tf : Type} (getImages : ImageClient Img Tf)
    (st : SpotImagePublisher) (request : GetImageRequest) (err : String)
    (hreq : st.image_request_message_ = some request)
    (herr : getImages request = Except.error err) :
    timerCallback getImages st =
      (st, [Effect.fetch request,
            Effect.logError ("Failed to get images: " ++ err)]) := by
  rw [timerCallback_some getImages st request hreq, herr]

/-- Unfolding a tick on which the client succeeds. -/
theorem timerCallback_ok {Img Tf : Type} (getImages : ImageClient Img Tf)
    (st : SpotImagePublisher) (request : GetImageRequest)
    (result : GetImagesResult Img Tf)
    (hreq : st.image_request_message_ = some request)
    (hok : getImages request = Except.ok result) :
    timerCallback getImages st =
      (st, Effect.fetch request ::
            (publishImagesEffects result.images_ ++
             [Effect.updateStaticTransforms result.transforms_])) := by
  rw [timerCallback_some getImages st request hreq, hok]

/-- A tick whose state holds a request fetches exactly that request, once. -/
theorem fetchedRequests_timerCallback {Img Tf : Type}
    (getImages : ImageClient Img Tf) (st : SpotImagePublisher)
    (request : GetImageRequest) (h : st.image_request_message_ = some request) :
    fetchedRequests (timerCallback getImages st).2 = [request] := by
  rcases hr : getImages request with err | ok
  · rw [timerCallback_error getImages st request err h hr]
    simp [fetchedRequests, List.filterMap_cons]
  · rw [timerCallback_ok getImages st request ok h hr]
    have hp := @fetchedRequests_publishImagesEffects Img Tf ok.images_
    simp only [fetchedRequests, List.filterMap_cons, List.filterMap_append] at hp ⊢
    rw [hp]
    simp

/-- C1: on a tick where the Image Client fails, the pipeline makes exactly one
log call, whose message is the fixed text with the client-provided detail
appended (so the message contains the detail); it makes zero publish calls and
zero broadcast calls; the state, the stored request included, is unchanged; and
the next tick against the same client behaviour is the very same computation. -/
theorem tick_client_error_logs_once_and_changes_nothing {Img Tf : Type}
    (getImages : ImageClient Img Tf) (st : SpotImagePublisher)
    (request : GetImageRequest) (err : String)
    (hreq : st.image_request_message_ = some request)
    (herr : getImages request = Except.error err) :
    (timerCallback getImages st).1 = st ∧
    (timerCallback getImages st).2 =
      [Effect.fetch request, Effect.logError ("Failed to get images: " ++ err)] ∧
    countLogErrors (timerCallback getImages st).2 = 1 ∧
    logMessages (timerCallback getImages st).2 = ["Failed to get images: " ++ err] ∧
    (∃ prefixText, "Failed to get images: " ++ err = prefixText ++ err) ∧
    countPublishes (timerCallback getImages st).2 = 0 ∧
    countBroadcasts (timerCallback getImages st).2 = 0 ∧
    timerCallback getImages (timerCallback getImages st).1 = timerCallback getImages st := by
  rw [timerCallback_error getImages st request err hreq herr]
  refine ⟨rfl, rfl, ?_, ?_, ⟨"Failed to get images: ", rfl⟩, ?_, ?_,
    timerCallback_error getImages st request err hreq herr⟩ <;>
    simp [countLogErrors, logMessages, countPublishes, countBroadcasts,
      List.countP_cons, List.filterMap_cons]

/-- C4: a tick executed while no request message was ever generated logs the
guard error and performs no fetch, no publish and no broadcast, leaving the
state unchanged. -/
theorem tick_without_request_only_logs {Img Tf : Type}
    (getImages : ImageClient Img Tf) (st : SpotImagePublisher)
    (h : st.image_request_message_ = none) :
    timerCallback getImages st =
      (st, [Effect.logError "No image request message generated. Returning."]) ∧
    countFetches (timerCallback getImages st).2 = 0 ∧
    countPublishes (timerCallback getImages st).2 = 0 ∧
    countBroadcasts (timerCallback getImages st).2 = 0 ∧
    countLogErrors (timerCallback getImages st).2 = 1 := by
  have htrace : timerCallback getImages st =
      (st, [Effect.logError "No image request message generated. Returning."]) := by
    unfold timerCallback
    rw [h]
  rw [htrace]
  refine ⟨rfl, ?_, ?_, ?_, ?_⟩ <;>
    simp [countFetches, countPublishes, countBroadcasts, countLogErrors,
      List.countP_cons]

/-- C5: on a tick where the Image Client succeeds, the trace is the fetch, then
one publish per (source, image) entry of the result in its original order, then
exactly one broadcast call carrying the full ordered transform sequence. -/
theorem tick_success_publishes_each_and_broadcasts_once {Img Tf : Type}
    (getImages : ImageClient Img Tf) (st : SpotImagePublisher)
    (request : GetImageRequest) (result : GetImagesResult Img Tf)
    (hreq : st.image_request_message_ = some request)
    (hok : getImages request = Except.ok result) :
    (timerCallback getImages st).2 =
      Effect.fetch request ::
        (publishImagesEffects result.images_ ++
         [Effect.updateStaticTransforms result.transforms_]) ∧
    publishedImages (timerCallback getImages st).2 = result.images_ ∧
    countPublishes (timerCallback getImages st).2 = result.images_.length ∧
    broadcastCalls (timerCallback getImages st).2 = [result.transforms_] ∧
    countBroadcasts (timerCallback getImages st).2 = 1 := by
  rw [timerCallback_ok getImages st request result hreq hok]
  refine ⟨rfl, ?_, ?_, ?_, ?_⟩
  · have hp := @publishedImages_publishImagesEffects Img Tf result.images_
    simp only [publishedImages, List.filterMap_cons, List.filterMap_append] at hp ⊢
    rw [hp]
    simp
  · have hp := @countPublishes_publishImagesEffects Img Tf result.images_
    simp only [countPublishes, List.countP_cons, List.countP_append] at hp ⊢
    rw [hp]
    simp
  · have hp := @broadcastCalls_publishImagesEffects Img Tf result.images_
    simp only [broadcastCalls, List.filterMap_cons, List.filterMap_append] at hp ⊢
    rw [hp]
    simp [List.filterMap_cons]
  · have hp := @countBroadcasts_publishImagesEffects Img Tf result.images_
    simp only [countBroadcasts, List.countP_cons, List.countP_append] at hp ⊢
    rw [hp]
    simp [List.countP_cons]

/-- `fetchedRequests` distributes over trace concatenation. -/
theorem fetchedRequests_append {Img Tf : Type} (a b : List (Effect Img Tf)) :
    fetchedRequests (a ++ b) = fetchedRequests a ++ fetchedRequests b := by
  simp [fetchedRequests]

/-- A run of `n` ticks from a state holding a request fetches that same request
exactly once per tick. -/
theorem runTicks_fetched {Img Tf : Type} (clients : Nat → ImageClient Img Tf)
    (n : Nat) (st : SpotImagePublisher) (request : GetImageRequest)
    (h : st.image_request_message_ = some request) :
    fetchedRequests (runTicks clients n st).2 = List.replicate n request := by
  induction n generalizing clients with
  | zero => simp [runTicks, fetchedRequests]
  | succ n ih =>
      simp only [runTicks]
      rw [fetchedRequests_append, fetchedRequests_timerCallback (clients 0) st request h,
        timerCallback_state_eq (clients 0) st, ih (fun k => clients (k + 1))]
      simp [List.replicate_succ]

/-- C3: `initialize` stores the request message built (once) from the
configuration snapshot and the source set, and any run of subsequent ticks
leaves the state — the stored request included — unchanged and invokes the
Image Client with exactly that request, once per tick; no tick rebuilds or
mutates it. -/
theorem request_built_once_and_reused {Img Tf : Type}
    (params : Params) (st0 : SpotImagePublisher)
    (clients : Nat → ImageClient Img Tf) (n : Nat) :
    ((initializePublisher params st0).2.1).image_request_message_ =
      some (createImageRequest
        (createImageSources params.publish_rgb_images params.publish_depth_images
          params.publish_depth_registered_images st0.has_arm_)
        params.has_rgb_cameras params.rgb_image_quality false) ∧
    (runTicks clients n (initializePublisher params st0).2.1).1 =
      (initializePublisher params st0).2.1 ∧
    fetchedRequests (runTicks clients n (initializePublisher params st0).2.1).2 =
      List.replicate n (createImageRequest
        (createImageSources params.publish_rgb_images params.publish_depth_images
          params.publish_depth_registered_images st0.has_arm_)
        params.has_rgb_cameras params.rgb_image_quality false) :=
  ⟨rfl, runTicks_state_eq clients n _, runTicks_fetched clients n _ _ rfl⟩

/-- Concrete all-off parameter snapshot used in the C6 counterexample. -/
def wParamsAllOff : Params :=
  { rgb_image_quality := 75
    publish_rgb_images := false
    publish_depth_images := false
    publish_depth_registered_images := false
    has_rgb_cameras := false }

/-- An initial pipeline state with no stored request, on a robot without an
arm. -/
def wStateNone : SpotImagePublisher :=
  { image_request_message_ := none, has_arm_ := false }

/-- C6 counterexample: with every publish flag off, request construction yields
a request with zero sub-requests, and that empty request is the one stored —
yet `initialize` reports success and the timer is armed. The implementation has
no failure path, so an empty request never prevents the timer from starting. -/
theorem init_empty_request_still_starts_timer :
    (createImageRequest (createImageSources false false false false) false
        (75 : Rat) false).image_requests = [] ∧
    ((initializePublisher wParamsAllOff wStateNone).2.1).image_request_message_ =
      some (createImageRequest (createImageSources false false false false) false
        (75 : Rat) false) ∧
    (initializePublisher wParamsAllOff wStateNone).1 = true ∧
    InitEffect.setTimer ∈ (initializePublisher wParamsAllOff wStateNone).2.2 := by
  refine ⟨rfl, rfl, rfl, ?_⟩
  simp [initializePublisher]

/-- C6 amended: `initialize` does return a success indicator, but it is
constantly `true` — the implementation has no failure path — and the periodic
timer is armed unconditionally, whatever the configuration and however the
request came out. -/
theorem init_always_returns_true_and_starts_timer (params : Params)
    (st : SpotImagePublisher) :
    (initializePublisher params st).1 = true ∧
    InitEffect.setTimer ∈ (initializePublisher params st).2.2 :=
  ⟨rfl, by simp [initializePublisher]⟩

/-- Concrete stored request used by the tick witnesses. -/
def wRequest : GetImageRequest :=
  createImageRequest [wRgbSource, wDepthSource] true (60 : Rat) false

/-- A pipeline state holding `wRequest`. -/
def wStateReady : SpotImagePublisher :=
  { image_request_message_ := some wRequest, has_arm_ := false }

/-- A simulated Image Client that always fails with a fixed diagnostic. -/
def wFailingClient : ImageClient Nat Nat :=
  fun _ => Except.error "simulated link failure"

/-- The successful result used by the C5 witness: images for two distinct
sources and two transform updates. -/
def wOkResult : GetImagesResult Nat Nat :=
  { images_ := [(wRgbSource, 7), (wDepthSource, 9)], transforms_ := [3, 4] }

/-- A simulated Image Client that always succeeds with `wOkResult`. -/
def wOkClient : ImageClient Nat Nat := fun _ => Except.ok wOkResult

/-- Witness for C1 at the concrete failing client: the hypotheses hold and the
tick leaves the state unchanged and publishes nothing. -/
theorem tick_client_error_witness :
    wStateReady.image_request_message_ = some wRequest ∧
    wFailingClient wRequest = Except.error "simulated link failure" ∧
    (timerCallback wFailingClient wStateReady).1 = wStateReady ∧
    countPublishes (timerCallback wFailingClient wStateReady).2 = 0 :=
  ⟨rfl, rfl,
    (tick_client_error_logs_once_and_changes_nothing wFailingClient wStateReady
      wRequest "simulated link failure" rfl rfl).1,
    (tick_client_error_logs_once_and_changes_nothing wFailingClient wStateReady
      wRequest "simulated link failure" rfl rfl).2.2.2.2.2.1⟩

/-- Witness for C4 at a concrete uninitialized state: the tick performs no
fetch. -/
theorem tick_without_request_witness :
    wStateNone.image_request_message_ = none ∧
    countFetches (timerCallback wFailingClient wStateNone).2 = 0 :=
  ⟨rfl, (tick_without_request_only_logs wFailingClient wStateNone rfl).2.1⟩

/-- Witness for C5 at the concrete succeeding client: two publish calls (one
per source in the result) and one broadcast call carrying both updates in their
original order. -/
theorem tick_success_witness :
    wStateReady.image_request_message_ = some wRequest ∧
    wOkClient wRequest = Except.ok wOkResult ∧
    countPublishes (timerCallback wOkClient wStateReady).2 = 2 ∧
    broadcastCalls (timerCallback wOkClient wStateReady).2 = [[3, 4]] := by
  have h := tick_success_publishes_each_and_broadcasts_once wOkClient wStateReady
    wRequest wOkResult rfl rfl
  refine ⟨rfl, rfl, ?_, ?_⟩
  · rw [h.2.2.1]
    rfl
  · rw [h.2.2.2.1]
    rfl

end SpotRos2
